import Mathlib

/-!
Shallow embedding of the database-access service core of this repository
(`lib/srv/db`): configuration validation, connection admission (TLS gate,
authorize, session construction), protocol-engine dispatch, heartbeat
info-provider, and the start/close lifecycle, together with theorems about
the specified properties.
-/

namespace DB

/-- Errors produced through the `trace` package.  `badParameter`, `notFound`
and `accessDenied` mirror the correspondingly named trace error classes;
`aggregate` mirrors `trace.NewAggregate` (carrying the messages of every
collected error); `wrapped` mirrors `trace.Wrap` around an external error. -/
inductive TraceErr
  | badParameter (msg : String)
  | notFound (msg : String)
  | accessDenied (msg : String)
  | aggregate (msgs : List String)
  | wrapped (msg : String)
deriving Repr, DecidableEq

/-- `trace.IsNotFound`: recognises the not-found error class. -/
def TraceErr.isNotFound : TraceErr → Bool
  | .notFound _ => true
  | _ => false

/-- CA rotation state (`services.Rotation`), kept abstract as its phase. -/
structure Rotation where
  phase : String
deriving Repr, DecidableEq, Inhabited

/-- A proxied database descriptor as the server code uses it
(`services.DatabaseServer`): name, protocol tag, backend URI, dynamic label
map, rotation state and announce TTL, mutated by `SetDynamicLabels`,
`SetRotation` and `SetTTL`.  Modelled from the spec: the `services` package
itself is not under src/; the spec describes the descriptor's fields (§3)
and states that its zero value is a zero-value descriptor (§9). -/
structure DatabaseServer where
  name : String
  protocol : String
  uri : String
  dynamicLabels : List (String × String)
  rotation : Rotation
  ttl : Nat
deriving Repr, DecidableEq, Inhabited

/-- The zero value of the external descriptor type: every field zero. -/
def zeroDatabaseServer : DatabaseServer :=
  { name := "", protocol := "", uri := "", dynamicLabels := [],
    rotation := { phase := "" }, ttl := 0 }

/-- A clock (`clockwork.Clock`), abstracted to its current reading. -/
structure Clock where
  now : Nat
deriving Repr, DecidableEq

/-- `clockwork.NewRealClock()`, the clock defaulted in when none is given. -/
def realClock : Clock := { now := 0 }

/-- Opaque handle to the directly connected auth client. -/
structure AuthClient where
  id : Nat
deriving Repr, DecidableEq

/-- Opaque handle to the caching access point. -/
structure AccessPoint where
  id : Nat
deriving Repr, DecidableEq

/-- Opaque handle to the non-blocking audit stream emitter. -/
structure StreamEmitter where
  id : Nat
deriving Repr, DecidableEq

/-- Opaque handle to the TLS configuration. -/
structure TLSConfig where
  id : Nat
deriving Repr, DecidableEq

/-- Opaque handle to the external authorizer. -/
structure Authorizer where
  id : Nat
deriving Repr, DecidableEq

/-- Opaque handle to an AWS credentials provider. -/
structure Credentials where
  id : Nat
deriving Repr, DecidableEq

/-- The configured rotation-phase getter (`GetRotation`), abstracted to the
Go-style pair it returns when called: a possibly nil `*services.Rotation`
and a possibly nil error. -/
structure RotationGetter where
  rotation : Option Rotation
  err : Option TraceErr
deriving Repr, DecidableEq

/-- Opaque handle to the heartbeat-outcome callback (`OnHeartbeat`). -/
structure HeartbeatCallback where
  id : Nat
deriving Repr, DecidableEq

/-- Server configuration (`Config`).  `Option` fields model Go nil-ability;
an empty string models an unset `DataDir` and an empty list an unset
`CipherSuites`/`Servers`, exactly the emptiness the code tests. -/
structure Config where
  clock : Option Clock
  dataDir : String
  authClient : Option AuthClient
  accessPoint : Option AccessPoint
  streamEmitter : Option StreamEmitter
  tlsConfig : Option TLSConfig
  cipherSuites : List Nat
  authorizer : Option Authorizer
  getRotation : Option RotationGetter
  servers : List DatabaseServer
  credentials : Option Credentials
  onHeartbeat : Option HeartbeatCallback
deriving Repr, DecidableEq

/-- The clock-defaulting step that `Config.CheckAndSetDefaults` performs
first: an unset clock becomes the real clock. -/
def Config.withClockDefault (c0 : Config) : Config :=
  if c0.clock.isNone then { c0 with clock := some realClock } else c0

/-- The mandatory-field checks and credential defaulting of
`Config.CheckAndSetDefaults`, after the clock has been defaulted. -/
def Config.checkRest (awsCredentials : Except String Credentials)
    (c : Config) : Except TraceErr Config :=
  if c.dataDir = "" then .error (.badParameter "data dir missing")
  else if c.authClient.isNone then .error (.badParameter "auth client log missing")
  else if c.accessPoint.isNone then .error (.badParameter "access point missing")
  else if c.streamEmitter.isNone then .error (.badParameter "stream emitter missing")
  else if c.tlsConfig.isNone then .error (.badParameter "tls config missing")
  else if c.cipherSuites.isEmpty then .error (.badParameter "cipersuites missing")
  else if c.authorizer.isNone then .error (.badParameter "authorizer missing")
  else if c.getRotation.isNone then .error (.badParameter "rotation getter missing")
  else if c.servers.isEmpty then .error (.badParameter "database servers missing")
  else if c.onHeartbeat.isNone then .error (.badParameter "heartbeat missing")
  else if c.credentials.isNone then
    match awsCredentials with
    | .error e => .error (.wrapped e)
    | .ok creds => .ok { c with credentials := some creds }
  else .ok c

/-- `Config.CheckAndSetDefaults`: default the clock, then run the mandatory
checks and the credential defaulting in the source's order.
`awsCredentials` stands for the result of
`awssession.NewSessionWithOptions(...)` (external), consulted only when the
credential provider is unset; each missing mandatory field returns a
`trace.BadParameter` with the source's message. -/
def Config.checkAndSetDefaults (awsCredentials : Except String Credentials)
    (c0 : Config) : Except TraceErr Config :=
  Config.checkRest awsCredentials c0.withClockDefault

@[simp] theorem withClockDefault_dataDir (c : Config) :
    c.withClockDefault.dataDir = c.dataDir := by
  unfold Config.withClockDefault; split <;> rfl

@[simp] theorem withClockDefault_authClient (c : Config) :
    c.withClockDefault.authClient = c.authClient := by
  unfold Config.withClockDefault; split <;> rfl

@[simp] theorem withClockDefault_accessPoint (c : Config) :
    c.withClockDefault.accessPoint = c.accessPoint := by
  unfold Config.withClockDefault; split <;> rfl

@[simp] theorem withClockDefault_streamEmitter (c : Config) :
    c.withClockDefault.streamEmitter = c.streamEmitter := by
  unfold Config.withClockDefault; split <;> rfl

@[simp] theorem withClockDefault_tlsConfig (c : Config) :
    c.withClockDefault.tlsConfig = c.tlsConfig := by
  unfold Config.withClockDefault; split <;> rfl

@[simp] theorem withClockDefault_cipherSuites (c : Config) :
    c.withClockDefault.cipherSuites = c.cipherSuites := by
  unfold Config.withClockDefault; split <;> rfl

@[simp] theorem withClockDefault_authorizer (c : Config) :
    c.withClockDefault.authorizer = c.authorizer := by
  unfold Config.withClockDefault; split <;> rfl

@[simp] theorem withClockDefault_getRotation (c : Config) :
    c.withClockDefault.getRotation = c.getRotation := by
  unfold Config.withClockDefault; split <;> rfl

@[simp] theorem withClockDefault_servers (c : Config) :
    c.withClockDefault.servers = c.servers := by
  unfold Config.withClockDefault; split <;> rfl

@[simp] theorem withClockDefault_onHeartbeat (c : Config) :
    c.withClockDefault.onHeartbeat = c.onHeartbeat := by
  unfold Config.withClockDefault; split <;> rfl

@[simp] theorem withClockDefault_credentials (c : Config) :
    c.withClockDefault.credentials = c.credentials := by
  unfold Config.withClockDefault; split <;> rfl

theorem withClockDefault_clock_isSome (c : Config) :
    c.withClockDefault.clock.isSome = true := by
  unfold Config.withClockDefault
  split
  · rfl
  · next h =>
    cases hk : c.clock with
    | none => rw [hk] at h; exact absurd rfl h
    | some k => rfl

theorem withClockDefault_clock_of_none (c : Config) (h : c.clock = none) :
    c.withClockDefault.clock = some realClock := by
  unfold Config.withClockDefault
  rw [h]
  rfl

/-- A running dynamic-label worker (`labels.Dynamic`), abstracted to the
descriptor it serves and the label map its probe currently reports
(`labels.Get()`). -/
structure DynamicLabelWorker where
  name : String
  labels : List (String × String)
deriving Repr, DecidableEq

/-- A running heartbeat worker (`srv.Heartbeat`), abstracted to the
descriptor it serves and the error message, if any, its `Close()` returns. -/
structure HeartbeatWorker where
  name : String
  closeErr : Option String
deriving Repr, DecidableEq

/-- The constructed server (`Server`): validated configuration plus the
per-descriptor worker tables and the RDS root-certificate cache built at
construction. -/
structure Server where
  config : Config
  dynamicLabels : List DynamicLabelWorker
  heartbeats : List HeartbeatWorker
  rdsCACerts : List (String × List Nat)
deriving Repr, DecidableEq

/-- The identity value stored in the request context by the middleware
(`ctx.Value(auth.ContextUser)`): a local cluster principal, a remote
trusted-cluster principal, or anything else (built-in role, absent value). -/
inductive ContextUser
  | localUser
  | remoteUser
  | builtinUser
  | unmapped
deriving Repr, DecidableEq

/-- The `%T` type name the rejection message interpolates. -/
def ContextUser.typeName : ContextUser → String
  | .localUser => "auth.LocalUser"
  | .remoteUser => "auth.RemoteUser"
  | .builtinUser => "auth.BuiltinRole"
  | .unmapped => "<nil>"

/-- Certificate-derived identity (`tlsca.Identity`), restricted to the
fields the admission path reads: principal name and the database service
name requested at certificate-issuance time (`RouteToDatabase.ServiceName`). -/
structure Identity where
  username : String
  routeToDatabaseServiceName : String
deriving Repr, DecidableEq

/-- Capability checker returned by the authorization oracle
(`services.AccessChecker`), abstracted to its database-name and
database-user allow-lists. -/
structure AccessChecker where
  allowDbNames : List String
  allowDbUsers : List String
deriving Repr, DecidableEq

/-- Result of `s.Authorizer.Authorize(ctx)`: capability checker plus
canonical identity. -/
structure AuthContext where
  identity : Identity
  checker : AccessChecker
deriving Repr, DecidableEq

/-- Session-scoped logger fields (`WithFields{id, db}`). -/
structure SessionLog where
  id : String
  db : String
deriving Repr, DecidableEq

/-- Per-connection session record (`session.Context`). -/
structure SessionContext where
  id : String
  server : DatabaseServer
  identity : Identity
  checker : AccessChecker
  log : SessionLog
deriving Repr, DecidableEq

/-- `Server.authorize`.  `userType` is the context value the middleware
stored; `oracle` is the outcome of the external authorization oracle for
this request; `freshId` is the `uuid.New()` result.  The descriptor scan
keeps the last configured descriptor whose database name equals the
requested service name and, as in the source, falls through to the zero
value of the descriptor type when none matches. -/
def Server.authorize (s : Server) (userType : ContextUser)
    (oracle : Except TraceErr AuthContext) (freshId : String) :
    Except TraceErr SessionContext :=
  match userType with
  | .localUser | .remoteUser =>
    match oracle with
    | .error e => .error e
    | .ok authContext =>
      let identity := authContext.identity
      let server :=
        (s.config.servers.foldl
          (fun acc db =>
            if db.name = identity.routeToDatabaseServiceName then some db else acc)
          none).getD zeroDatabaseServer
      .ok { id := freshId, server := server, identity := identity,
            checker := authContext.checker,
            log := { id := freshId, db := server.name } }
  | other => .error (.badParameter ("invalid identity: " ++ other.typeName))

/-- A stream writer bound to one connection (`events.StreamWriter`),
abstracted to an opaque handle. -/
structure StreamWriter where
  id : Nat
deriving Repr, DecidableEq

/-- An audit-emission closure handed to an engine, recording which emission
it performs and the stream writer it is bound to. -/
inductive AuditFn
  | sessionStart (w : StreamWriter)
  | sessionEnd (w : StreamWriter)
  | query (w : StreamWriter)
deriving Repr, DecidableEq

/-- `Server.emitSessionStartEventFn`: session-start emission bound to `w`. -/
def Server.emitSessionStartEventFn (w : StreamWriter) : AuditFn := .sessionStart w

/-- `Server.emitSessionEndEventFn`: session-end emission bound to `w`. -/
def Server.emitSessionEndEventFn (w : StreamWriter) : AuditFn := .sessionEnd w

/-- `Server.emitQueryEventFn`: query emission bound to `w`. -/
def Server.emitQueryEventFn (w : StreamWriter) : AuditFn := .query w

/-- `defaults.ProtocolPostgres`, the one registered protocol tag. -/
def protocolPostgres : String := "postgres"

/-- The postgres engine value `dispatch` builds (`postgres.Engine`),
with the wiring fields the source sets. -/
structure PostgresEngine where
  authClient : Option AuthClient
  credentials : Option Credentials
  rdsCACerts : List (String × List Nat)
  onSessionStart : AuditFn
  onSessionEnd : AuditFn
  onQuery : AuditFn
  clock : Option Clock
  log : SessionLog
deriving Repr, DecidableEq

/-- A constructed protocol engine (`DatabaseEngine`). -/
inductive DatabaseEngine
  | postgres (engine : PostgresEngine)
deriving Repr, DecidableEq

/-- `Server.dispatch`: switch on the session target's protocol tag; the
only registered case is postgres, every other tag yields the
`trace.BadParameter` naming the protocol. -/
def Server.dispatch (s : Server) (sessionCtx : SessionContext)
    (streamWriter : StreamWriter) : Except TraceErr DatabaseEngine :=
  if sessionCtx.server.protocol = protocolPostgres then
    .ok (.postgres
      { authClient := s.config.authClient
        credentials := s.config.credentials
        rdsCACerts := s.rdsCACerts
        onSessionStart := Server.emitSessionStartEventFn streamWriter
        onSessionEnd := Server.emitSessionEndEventFn streamWriter
        onQuery := Server.emitQueryEventFn streamWriter
        clock := s.config.clock
        log := sessionCtx.log })
  else
    .error (.badParameter
      ("unsupported database procotol \"" ++ sessionCtx.server.protocol ++ "\""))

/-- `defaults.ServerAnnounceTTL` in seconds (external constant; its exact
value is irrelevant to the properties proved here). -/
def serverAnnounceTTL : Nat := 600

/-- `services.Resource.SetTTL`: reset the descriptor expiry against the
given clock. -/
def setTTL (clock : Clock) (ttl : Nat) (server : DatabaseServer) : DatabaseServer :=
  { server with ttl := clock.now + ttl }

/-- Outcome of running a piece of Go code that may panic. -/
inductive GoResult (α : Type)
  | ok (value : α)
  | panicked (msg : String)
deriving Repr, DecidableEq

/-- The Go runtime message for dereferencing a nil pointer. -/
def nilDereferenceMsg : String :=
  "runtime error: invalid memory address or nil pointer dereference"

/-- The function `Server.getServerInfoFunc` returns, evaluated for one
scheduled heartbeat tick on descriptor `server`: merge the current dynamic
label map when this descriptor has a label worker, call the rotation
getter, warn (a no-op here) on a non-not-found error but otherwise execute
`server.SetRotation(*rotation)` — a nil-pointer dereference when the getter
returned no rotation value — then reset the TTL and return the mutated
descriptor. -/
def Server.getServerInfo (s : Server) (server : DatabaseServer) :
    GoResult DatabaseServer :=
  let server :=
    match s.dynamicLabels.find? (fun d => d.name = server.name) with
    | some d => { server with dynamicLabels := d.labels }
    | none => server
  let getter := s.config.getRotation.getD { rotation := none, err := none }
  let clock := s.config.clock.getD realClock
  match getter.err with
  | some e =>
    if e.isNotFound then
      match getter.rotation with
      | some rot =>
        .ok (setTTL clock serverAnnounceTTL { server with rotation := rot })
      | none => .panicked nilDereferenceMsg
    else
      .ok (setTTL clock serverAnnounceTTL server)
  | none =>
    match getter.rotation with
    | some rot =>
      .ok (setTTL clock serverAnnounceTTL { server with rotation := rot })
    | none => .panicked nilDereferenceMsg

/-- One background-worker launch performed by `Server.Start`. -/
inductive StartEvent
  | startLabelWorker (name : String)
  | runHeartbeat (name : String)
deriving Repr, DecidableEq

/-- `Server.Start`: launch every dynamic-label worker, then every heartbeat
worker, and return the source's unconditional nil error. -/
def Server.start (s : Server) : List StartEvent × Option TraceErr :=
  (s.dynamicLabels.map (fun d => StartEvent.startLabelWorker d.name)
     ++ s.heartbeats.map (fun h => StartEvent.runHeartbeat h.name),
   none)

/-- One step performed by `Server.Close`. -/
inductive CloseEvent
  | stopLabel (name : String)
  | cancelContext
  | closeHeartbeat (name : String)
deriving Repr, DecidableEq

/-- `trace.NewAggregate`: drop nil errors; nil when none remain, otherwise
one aggregate error carrying every collected failure. -/
def newAggregate (errs : List (Option String)) : Option TraceErr :=
  let es := errs.filterMap id
  if es.isEmpty then none else some (.aggregate es)

/-- `Server.Close`: stop every label worker (return values swallowed),
cancel the shared close context, then close every heartbeat worker,
aggregating all their errors. -/
def Server.close (s : Server) : List CloseEvent × Option TraceErr :=
  (s.dynamicLabels.map (fun d => CloseEvent.stopLabel d.name)
     ++ CloseEvent.cancelContext :: s.heartbeats.map (fun h => CloseEvent.closeHeartbeat h.name),
   newAggregate (s.heartbeats.map (fun h => h.closeErr)))

/-- Which cancellation scope a deferred stream-writer close is bound to. -/
inductive CtxTag
  | serverClose
  | perConnection
deriving Repr, DecidableEq

/-- Observable steps of handling one inbound connection. -/
inductive ConnEvent
  | tlsHandshakeOk
  | identityExtracted
  | authorizeAttempt
  | sessionConstructed (id : String)
  | streamWriterCreated
  | dispatchAttempt
  | engineRun
  | closeStreamWriter (ctx : CtxTag)
  | connClosed
deriving Repr, DecidableEq

/-- Recogniser for stream-writer close events. -/
def ConnEvent.isCloseStreamWriter : ConnEvent → Bool
  | .closeStreamWriter _ => true
  | _ => false

/-- Recogniser for session-construction events. -/
def ConnEvent.isSessionConstructed : ConnEvent → Bool
  | .sessionConstructed _ => true
  | _ => false

/-- The externally determined outcomes of one connection's collaborators:
the TLS handshake, the middleware's identity extraction, the context user
it stored, the authorization oracle, stream-writer creation, and the
engine's run. -/
structure ConnOutcomes where
  handshakeErr : Option String
  identityErr : Option String
  userType : ContextUser
  oracle : Except TraceErr AuthContext
  streamWriterErr : Option String
  engineErr : Option String
deriving Repr

/-- The lower-case `Server.handleConnection`: authorize, create the stream
writer, defer its close — spawned against the server's close context — then
dispatch and run the engine.  Returns the ordered observable events next to
the error result.  The deferred stream-writer close runs whenever the
function returns after writer creation, so it appears in every branch past
that point, always bound to the server-close scope. -/
def Server.handleConnectionInner (s : Server) (o : ConnOutcomes)
    (freshId : String) (streamWriter : StreamWriter) :
    List ConnEvent × Option TraceErr :=
  match s.authorize o.userType o.oracle freshId with
  | .error e => ([ConnEvent.authorizeAttempt], some e)
  | .ok sessionCtx =>
    match o.streamWriterErr with
    | some e =>
      ([ConnEvent.authorizeAttempt, ConnEvent.sessionConstructed sessionCtx.id],
       some (.wrapped e))
    | none =>
      let pre := [ConnEvent.authorizeAttempt,
                  ConnEvent.sessionConstructed sessionCtx.id,
                  ConnEvent.streamWriterCreated]
      match s.dispatch sessionCtx streamWriter with
      | .error e =>
        (pre ++ [ConnEvent.dispatchAttempt,
                 ConnEvent.closeStreamWriter CtxTag.serverClose], some e)
      | .ok _ =>
        match o.engineErr with
        | some e =>
          (pre ++ [ConnEvent.dispatchAttempt, ConnEvent.engineRun,
                   ConnEvent.closeStreamWriter CtxTag.serverClose],
           some (.wrapped e))
        | none =>
          (pre ++ [ConnEvent.dispatchAttempt, ConnEvent.engineRun,
                   ConnEvent.closeStreamWriter CtxTag.serverClose], none)

/-- The exported `Server.HandleConnection`: the deferred `conn.Close()` runs
on every return path; the TLS handshake is performed first and a failure
returns immediately; identity extraction follows, a failure again returning
immediately; only then is the connection handed to the inner handler. -/
def Server.handleConnection (s : Server) (o : ConnOutcomes)
    (freshId : String) (streamWriter : StreamWriter) : List ConnEvent :=
  match o.handshakeErr with
  | some _ => [ConnEvent.connClosed]
  | none =>
    match o.identityErr with
    | some _ => [ConnEvent.tlsHandshakeOk, ConnEvent.connClosed]
    | none =>
      ConnEvent.tlsHandshakeOk :: ConnEvent.identityExtracted ::
        ((s.handleConnectionInner o freshId streamWriter).fst
          ++ [ConnEvent.connClosed])

/-- `services.Wildcard`, matching any database name or user. -/
def wildcard : String := "*"

/-- Modelled from the spec: the engine-side database access check
(`services.AccessChecker` against the requested database name and user) is
not under src/ — only its test `TestDatabaseAccess` is.  Per the spec's
access-checker semantics, a requested value matches an allow-list when some
selector in the list is the wildcard or equals the value. -/
def matchAllowed (allowed : List String) (requested : String) : Bool :=
  allowed.any fun sel => sel = wildcard || sel = requested

/-- Modelled from the spec: the engine grants the session's requested
(database name, database user) pair exactly when both match their
allow-lists, and otherwise denies with the access-denied error the test
suite asserts, before any query executes. -/
def checkAccessToDatabase (allowDbNames allowDbUsers : List String)
    (dbName dbUser : String) : Except TraceErr Unit :=
  if matchAllowed allowDbNames dbName && matchAllowed allowDbUsers dbUser then
    .ok ()
  else
    .error (.accessDenied "access to database denied")

/-! ## Concrete fixtures -/

/-- A permissive capability checker. -/
def checker0 : AccessChecker :=
  { allowDbNames := [wildcard], allowDbUsers := [wildcard] }

/-- The configured test database descriptor. -/
def testDb : DatabaseServer :=
  { name := "test", protocol := protocolPostgres, uri := "localhost:54321",
    dynamicLabels := [], rotation := { phase := "standby" }, ttl := 0 }

/-- An identity routed to the configured database. -/
def identityTest : Identity :=
  { username := "alice", routeToDatabaseServiceName := "test" }

/-- An oracle result for `identityTest`. -/
def authContext0 : AuthContext := { identity := identityTest, checker := checker0 }

/-- A fully populated configuration. -/
def config0 : Config :=
  { clock := some realClock
    dataDir := "/var/lib/teleport"
    authClient := some { id := 1 }
    accessPoint := some { id := 2 }
    streamEmitter := some { id := 3 }
    tlsConfig := some { id := 4 }
    cipherSuites := [1, 2]
    authorizer := some { id := 5 }
    getRotation := some { rotation := some { phase := "standby" }, err := none }
    servers := [testDb]
    credentials := some { id := 6 }
    onHeartbeat := some { id := 7 } }

/-- A server built over `config0` with no background workers. -/
def server0 : Server :=
  { config := config0, dynamicLabels := [], heartbeats := [], rdsCACerts := [] }

/-! ## Claim theorems -/

/-- C4: for every identity whose principal type is outside
{local cluster principal, remote trusted-cluster principal}, `authorize`
fails with a BadParameter-class error, uniformly in the authorization
oracle — so before and independently of consulting it — and no session is
constructed. -/
theorem authorize_rejects_foreign_principal (s : Server) (u : ContextUser)
    (oracle : Except TraceErr AuthContext) (freshId : String)
    (h1 : u ≠ ContextUser.localUser) (h2 : u ≠ ContextUser.remoteUser) :
    s.authorize u oracle freshId =
      .error (TraceErr.badParameter ("invalid identity: " ++ u.typeName)) := by
  cases u with
  | localUser => exact absurd rfl h1
  | remoteUser => exact absurd rfl h2
  | builtinUser => rfl
  | unmapped => rfl

/-- Witness for the principal-type rejection at a concrete built-in role. -/
theorem authorize_rejects_foreign_principal_witness :
    server0.authorize ContextUser.builtinUser (.ok authContext0) "sid-1" =
      .error (TraceErr.badParameter "invalid identity: auth.BuiltinRole") :=
  authorize_rejects_foreign_principal server0 ContextUser.builtinUser
    (.ok authContext0) "sid-1" (by decide) (by decide)

/-- C5: dispatch on a protocol tag with no registered engine constructor
returns the BadParameter error naming that protocol and never an engine
value; on the one registered protocol it returns the postgres engine wired
with the credential provider, the root-certificate cache, the three
audit-emission closures bound to the stream writer, the clock and the
session logger. -/
theorem dispatch_unsupported_or_postgres (s : Server) (sc : SessionContext)
    (w : StreamWriter) :
    (sc.server.protocol ≠ protocolPostgres →
      s.dispatch sc w = .error (TraceErr.badParameter
        ("unsupported database procotol \"" ++ sc.server.protocol ++ "\"")) ∧
      ∀ engine, s.dispatch sc w ≠ .ok engine) ∧
    (sc.server.protocol = protocolPostgres →
      s.dispatch sc w = .ok (DatabaseEngine.postgres
        { authClient := s.config.authClient
          credentials := s.config.credentials
          rdsCACerts := s.rdsCACerts
          onSessionStart := AuditFn.sessionStart w
          onSessionEnd := AuditFn.sessionEnd w
          onQuery := AuditFn.query w
          clock := s.config.clock
          log := sc.log })) := by
  constructor
  · intro h
    constructor
    · simp [Server.dispatch, h]
    · intro engine hEq
      simp [Server.dispatch, h] at hEq
  · intro h
    simp [Server.dispatch, h, Server.emitSessionStartEventFn,
      Server.emitSessionEndEventFn, Server.emitQueryEventFn]

/-- A session targeting a protocol with no registered engine. -/
def sessionMySql : SessionContext :=
  { id := "sid-5", server := { testDb with protocol := "mysql" },
    identity := identityTest, checker := checker0,
    log := { id := "sid-5", db := "test" } }

/-- Witness for dispatch at the concrete unregistered protocol tag. -/
theorem dispatch_unsupported_or_postgres_witness :
    server0.dispatch sessionMySql { id := 11 } =
      .error (TraceErr.badParameter "unsupported database procotol \"mysql\"") :=
  ((dispatch_unsupported_or_postgres server0 sessionMySql { id := 11 }).1
    (by decide)).1

/-- C10: `Start` always returns a nil error, for every constructed server:
launching the dynamic-label and heartbeat workers never fails at the start
call itself. -/
theorem start_returns_nil (s : Server) : (Server.start s).snd = none := rfl

/-- C1: evaluation at the failing input.  With one configured descriptor
named `test` and a client identity requesting service `other`, `authorize`
does not fail: it returns a session whose target is the zero-value
descriptor, contradicting the claim that authorization fails when the
requested service name matches no configured descriptor. -/
theorem authorize_passes_through_zero_descriptor :
    server0.authorize ContextUser.localUser
        (.ok { identity := { username := "alice",
                             routeToDatabaseServiceName := "other" },
               checker := checker0 }) "sid-0" =
      .ok { id := "sid-0", server := zeroDatabaseServer,
            identity := { username := "alice",
                          routeToDatabaseServiceName := "other" },
            checker := checker0,
            log := { id := "sid-0", db := "" } } := by
  rfl

/-- A server whose rotation getter reports not-found with a nil rotation
pointer, the conventional Go pairing of a nil result with an error. -/
def serverNotFoundRotation : Server :=
  { server0 with
    config := { config0 with
      getRotation := some { rotation := none,
                            err := some (TraceErr.notFound "not found") } } }

/-- C2: evaluation at the failing input.  When the rotation getter returns
(nil, NotFound), the heartbeat info-provider takes the SetRotation branch
and dereferences the nil rotation pointer: the tick panics instead of
tolerating the not-found result, refreshing the TTL and returning the
descriptor. -/
theorem getServerInfo_panics_on_notfound :
    Server.getServerInfo serverNotFoundRotation testDb =
      GoResult.panicked nilDereferenceMsg := by
  rfl

/-- A requested value matches an allow-list exactly when the list holds the
wildcard or the value itself. -/
theorem matchAllowed_iff (l : List String) (x : String) :
    matchAllowed l x = true ↔ wildcard ∈ l ∨ x ∈ l := by
  simp only [matchAllowed, List.any_eq_true, Bool.or_eq_true, decide_eq_true_eq]
  constructor
  · rintro ⟨sel, hsel, h | h⟩
    · exact Or.inl (h ▸ hsel)
    · exact Or.inr (h ▸ hsel)
  · rintro (h | h)
    · exact ⟨wildcard, h, Or.inl rfl⟩
    · exact ⟨x, h, Or.inr rfl⟩

/-- C8: the engine grants the requested (database name, database user) pair
iff the name is wildcard-or-member of the database-name allow-list and the
user is wildcard-or-member of the database-user allow-list; in every other
case it denies with the access-denied error, before any query executes. -/
theorem checkAccessToDatabase_iff (ns us : List String) (n u : String) :
    (checkAccessToDatabase ns us n u = .ok () ↔
      ((wildcard ∈ ns ∨ n ∈ ns) ∧ (wildcard ∈ us ∨ u ∈ us))) ∧
    (¬ ((wildcard ∈ ns ∨ n ∈ ns) ∧ (wildcard ∈ us ∨ u ∈ us)) →
      checkAccessToDatabase ns us n u =
        .error (TraceErr.accessDenied "access to database denied")) := by
  have hn := matchAllowed_iff ns n
  have hu := matchAllowed_iff us u
  unfold checkAccessToDatabase
  by_cases hc : (matchAllowed ns n && matchAllowed us u) = true
  · obtain ⟨h1, h2⟩ := Bool.and_eq_true_iff.mp hc
    rw [if_pos hc]
    have hgrant : (wildcard ∈ ns ∨ n ∈ ns) ∧ (wildcard ∈ us ∨ u ∈ us) :=
      ⟨hn.mp h1, hu.mp h2⟩
    exact ⟨⟨fun _ => hgrant, fun _ => rfl⟩, fun hcontra => absurd hgrant hcontra⟩
  · rw [if_neg hc]
    have hnot : ¬ ((wildcard ∈ ns ∨ n ∈ ns) ∧ (wildcard ∈ us ∨ u ∈ us)) := by
      rintro ⟨h1, h2⟩
      exact hc (Bool.and_eq_true_iff.mpr ⟨hn.mpr h1, hu.mpr h2⟩)
    refine ⟨⟨fun h => Except.noConfusion h, fun h => absurd h hnot⟩, fun _ => rfl⟩

/-- Witness for the access check at a concrete denied request from the test
table: empty database-name allow-list, wildcard user allow-list. -/
theorem checkAccessToDatabase_iff_witness :
    checkAccessToDatabase [] [wildcard] "postgres" "postgres" =
      .error (TraceErr.accessDenied "access to database denied") :=
  (checkAccessToDatabase_iff [] [wildcard] "postgres" "postgres").2 (by decide)

/-- `trace.NewAggregate` keeps every collected failure: any error present
among the inputs appears in the aggregate it returns. -/
theorem newAggregate_mem (errs : List (Option String)) (e : String)
    (he : some e ∈ errs) :
    ∃ msgs, newAggregate errs = some (TraceErr.aggregate msgs) ∧ e ∈ msgs := by
  have hein : e ∈ errs.filterMap id := List.mem_filterMap.mpr ⟨some e, he, rfl⟩
  refine ⟨errs.filterMap id, ?_, hein⟩
  have hne : (errs.filterMap id).isEmpty = false := by
    cases hq : errs.filterMap id with
    | nil => rw [hq] at hein; cases hein
    | cons a t => rfl
  simp [newAggregate, hne]

/-- `trace.NewAggregate` returns nil exactly when every input is nil. -/
theorem newAggregate_eq_none_iff (errs : List (Option String)) :
    newAggregate errs = none ↔ ∀ o ∈ errs, o = none := by
  constructor
  · intro h o ho
    cases o with
    | none => rfl
    | some e =>
      obtain ⟨msgs, hm, _⟩ := newAggregate_mem errs e ho
      rw [h] at hm
      cases hm
  · intro h
    have hnil : errs.filterMap id = [] := by
      rw [List.filterMap_eq_nil_iff]
      intro a ha
      exact h a ha
    simp [newAggregate, hnil]

/-- C6: `Close` stops every label worker first, then cancels the shared
lifecycle context, then closes every heartbeat worker, and its error
aggregates every heartbeat-close failure — it is nil exactly when no
heartbeat close failed, and each failure appears in the combined error. -/
theorem close_order_and_aggregate (s : Server) :
    (∃ labelEvents hbEvents,
      (Server.close s).fst =
        labelEvents ++ CloseEvent.cancelContext :: hbEvents ∧
      (∀ e ∈ labelEvents, ∃ nm, e = CloseEvent.stopLabel nm) ∧
      (∀ e ∈ hbEvents, ∃ nm, e = CloseEvent.closeHeartbeat nm) ∧
      (∀ d ∈ s.dynamicLabels, CloseEvent.stopLabel d.name ∈ labelEvents) ∧
      (∀ hb ∈ s.heartbeats, CloseEvent.closeHeartbeat hb.name ∈ hbEvents)) ∧
    (∀ hb ∈ s.heartbeats, ∀ e, hb.closeErr = some e →
      ∃ msgs, (Server.close s).snd = some (TraceErr.aggregate msgs) ∧
        e ∈ msgs) ∧
    ((Server.close s).snd = none ↔ ∀ hb ∈ s.heartbeats, hb.closeErr = none) := by
  refine ⟨?_, ?_, ?_⟩
  · refine ⟨s.dynamicLabels.map (fun d => CloseEvent.stopLabel d.name),
      s.heartbeats.map (fun h => CloseEvent.closeHeartbeat h.name),
      by rfl, ?_, ?_, ?_, ?_⟩
    · intro e he
      obtain ⟨d, _, hd⟩ := List.mem_map.mp he
      exact ⟨d.name, hd.symm⟩
    · intro e he
      obtain ⟨hb, _, hhb⟩ := List.mem_map.mp he
      exact ⟨hb.name, hhb.symm⟩
    · intro d hd
      exact List.mem_map.mpr ⟨d, hd, rfl⟩
    · intro hb hhb
      exact List.mem_map.mpr ⟨hb, hhb, rfl⟩
  · intro hb hhb e he
    exact newAggregate_mem _ e
      (List.mem_map.mpr ⟨hb, hhb, by rw [he]⟩)
  · rw [show (Server.close s).snd =
        newAggregate (s.heartbeats.map (fun h => h.closeErr)) from rfl,
      newAggregate_eq_none_iff]
    constructor
    · intro h hb hhb
      exact h hb.closeErr (List.mem_map.mpr ⟨hb, hhb, rfl⟩)
    · intro h o ho
      obtain ⟨hb, hhb, rfl⟩ := List.mem_map.mp ho
      exact h hb hhb

/-- A server with two heartbeat workers whose closes both fail. -/
def serverTwoFailingHeartbeats : Server :=
  { server0 with
    heartbeats := [{ name := "db1", closeErr := some "close failed 1" },
                   { name := "db2", closeErr := some "close failed 2" }] }

/-- Witness: a run with two failing heartbeat closes produces one combined
error exposing both failures. -/
theorem close_order_and_aggregate_witness :
    ∃ msgs, (Server.close serverTwoFailingHeartbeats).snd =
        some (TraceErr.aggregate msgs) ∧
      "close failed 1" ∈ msgs ∧ "close failed 2" ∈ msgs := by
  obtain ⟨m1, h1, e1⟩ :=
    (close_order_and_aggregate serverTwoFailingHeartbeats).2.1
      { name := "db1", closeErr := some "close failed 1" } (by decide)
      "close failed 1" rfl
  obtain ⟨m2, h2, e2⟩ :=
    (close_order_and_aggregate serverTwoFailingHeartbeats).2.1
      { name := "db2", closeErr := some "close failed 2" } (by decide)
      "close failed 2" rfl
  rw [h1] at h2
  injection h2 with h3
  injection h3 with h4
  exact ⟨m1, h1, e1, h4 ▸ e2⟩

/-- C7: when the TLS handshake or the identity extraction fails, connection
handling closes the raw connection, constructs no session and never reaches
the authorization step; conversely any run that reaches the authorization
step had a successful handshake first — the handshake event opens the
trace. -/
theorem tls_gate_before_authorize (s : Server) (o : ConnOutcomes)
    (freshId : String) (w : StreamWriter) :
    ((o.handshakeErr.isSome = true ∨ o.identityErr.isSome = true) →
      ConnEvent.connClosed ∈ s.handleConnection o freshId w ∧
      (∀ e ∈ s.handleConnection o freshId w,
        e.isSessionConstructed = false) ∧
      ConnEvent.authorizeAttempt ∉ s.handleConnection o freshId w) ∧
    (ConnEvent.authorizeAttempt ∈ s.handleConnection o freshId w →
      o.handshakeErr = none ∧ o.identityErr = none ∧
      (s.handleConnection o freshId w).head? =
        some ConnEvent.tlsHandshakeOk) := by
  cases hh : o.handshakeErr with
  | some e1 =>
    constructor
    · intro _
      refine ⟨?_, ?_, ?_⟩ <;>
        simp [Server.handleConnection, hh, ConnEvent.isSessionConstructed]
    · intro hmem
      simp [Server.handleConnection, hh] at hmem
  | none =>
    cases hi : o.identityErr with
    | some e2 =>
      constructor
      · intro _
        refine ⟨?_, ?_, ?_⟩ <;>
          simp [Server.handleConnection, hh, hi, ConnEvent.isSessionConstructed]
      · intro hmem
        simp [Server.handleConnection, hh, hi] at hmem
    | none =>
      constructor
      · rintro (h | h) <;> simp at h
      · intro _
        exact ⟨rfl, rfl, by simp [Server.handleConnection, hh, hi]⟩

/-- Witness for the TLS gate at a concrete failed handshake. -/
theorem tls_gate_before_authorize_witness :
    ConnEvent.connClosed ∈ server0.handleConnection
      { handshakeErr := some "tls: bad certificate", identityErr := none,
        userType := ContextUser.localUser, oracle := .ok authContext0,
        streamWriterErr := none, engineErr := none } "sid-7" { id := 13 } ∧
    ConnEvent.authorizeAttempt ∉ server0.handleConnection
      { handshakeErr := some "tls: bad certificate", identityErr := none,
        userType := ContextUser.localUser, oracle := .ok authContext0,
        streamWriterErr := none, engineErr := none } "sid-7" { id := 13 } := by
  have h := (tls_gate_before_authorize server0
    { handshakeErr := some "tls: bad certificate", identityErr := none,
      userType := ContextUser.localUser, oracle := .ok authContext0,
      streamWriterErr := none, engineErr := none } "sid-7" { id := 13 }).1
    (Or.inl rfl)
  exact ⟨h.1, h.2.2⟩

/-- C9: on every connection on which the TLS gate passed, authorization
succeeded and the stream writer was created, the stream writer is closed
exactly once, and that close is bound to the server's shutdown-scoped
context, never the per-connection context — for every dispatch and engine
outcome. -/
theorem streamWriter_closed_once (s : Server) (o : ConnOutcomes)
    (freshId : String) (w : StreamWriter)
    (hh : o.handshakeErr = none) (hi : o.identityErr = none)
    (ha : ∃ sessionCtx,
      s.authorize o.userType o.oracle freshId = .ok sessionCtx)
    (hw : o.streamWriterErr = none) :
    ((s.handleConnection o freshId w).filter
        ConnEvent.isCloseStreamWriter).length = 1 ∧
    (∀ tag, ConnEvent.closeStreamWriter tag ∈ s.handleConnection o freshId w →
      tag = CtxTag.serverClose) := by
  obtain ⟨sc, hsc⟩ := ha
  rcases hd : s.dispatch sc w with e | eng <;>
    rcases he : o.engineErr with _ | e2 <;>
    (constructor
     · simp [Server.handleConnection, Server.handleConnectionInner, hh, hi,
         hw, hsc, hd, he, ConnEvent.isCloseStreamWriter, List.filter]
     · intro tag htag
       simp [Server.handleConnection, Server.handleConnectionInner, hh, hi,
         hw, hsc, hd, he] at htag
       exact htag)

/-- All-success collaborator outcomes for one connection. -/
def outcomesOk : ConnOutcomes :=
  { handshakeErr := none, identityErr := none,
    userType := ContextUser.localUser, oracle := .ok authContext0,
    streamWriterErr := none, engineErr := none }

/-- Witness for the single server-scoped stream-writer close on a concrete
successful connection. -/
theorem streamWriter_closed_once_witness :
    ((server0.handleConnection outcomesOk "sid-9" { id := 12 }).filter
        ConnEvent.isCloseStreamWriter).length = 1 ∧
    (∀ tag, ConnEvent.closeStreamWriter tag ∈
        server0.handleConnection outcomesOk "sid-9" { id := 12 } →
      tag = CtxTag.serverClose) :=
  streamWriter_closed_once server0 outcomesOk "sid-9" { id := 12 }
    rfl rfl ⟨_, rfl⟩ rfl

/-- A configuration complete except for the clock. -/
def configMissingClock : Config := { config0 with clock := none }

/-- C3 counterexample: a Config with the clock unset and every other field
set does not yield a configuration error — validation succeeds and the
clock is silently defaulted, so the clock is not a mandatory field. -/
theorem clock_unset_does_not_error :
    configMissingClock.clock = none ∧
    configMissingClock.checkAndSetDefaults (Except.ok { id := 9 }) =
      Except.ok { configMissingClock with clock := some realClock } :=
  ⟨rfl, rfl⟩

/-- Recogniser for configuration-validation results that are BadParameter
errors. -/
def resultIsBadParameter : Except TraceErr Config → Bool
  | .error (.badParameter _) => true
  | _ => false

/-- A validation result the recogniser accepts is a BadParameter error. -/
theorem badParam_exists (r : Except TraceErr Config)
    (h : resultIsBadParameter r = true) :
    ∃ m, r = .error (TraceErr.badParameter m) := by
  match r with
  | .error (.badParameter m) => exact ⟨m, rfl⟩
  | .error (.notFound m) => exact Bool.noConfusion h
  | .error (.accessDenied m) => exact Bool.noConfusion h
  | .error (.aggregate ms) => exact Bool.noConfusion h
  | .error (.wrapped m) => exact Bool.noConfusion h
  | .ok cfg => exact Bool.noConfusion h

/-- C3 (amended): every mandatory field other than the clock and the
credential provider is rejected when unset — each of data directory, auth
client, access point, stream emitter, TLS config, cipher suites,
authorizer, rotation getter, descriptor list and heartbeat callback yields
a descriptive BadParameter error — while a validated configuration always
carries a clock and a credential provider, the clock defaulted to the real
clock when it was unset. -/
theorem checkAndSetDefaults_mandatory_fields (aws : Except String Credentials)
    (c : Config) :
    ((c.dataDir = "" →
        ∃ m, c.checkAndSetDefaults aws = .error (TraceErr.badParameter m)) ∧
     (c.authClient = none →
        ∃ m, c.checkAndSetDefaults aws = .error (TraceErr.badParameter m)) ∧
     (c.accessPoint = none →
        ∃ m, c.checkAndSetDefaults aws = .error (TraceErr.badParameter m)) ∧
     (c.streamEmitter = none →
        ∃ m, c.checkAndSetDefaults aws = .error (TraceErr.badParameter m)) ∧
     (c.tlsConfig = none →
        ∃ m, c.checkAndSetDefaults aws = .error (TraceErr.badParameter m)) ∧
     (c.cipherSuites = [] →
        ∃ m, c.checkAndSetDefaults aws = .error (TraceErr.badParameter m)) ∧
     (c.authorizer = none →
        ∃ m, c.checkAndSetDefaults aws = .error (TraceErr.badParameter m)) ∧
     (c.getRotation = none →
        ∃ m, c.checkAndSetDefaults aws = .error (TraceErr.badParameter m)) ∧
     (c.servers = [] →
        ∃ m, c.checkAndSetDefaults aws = .error (TraceErr.badParameter m)) ∧
     (c.onHeartbeat = none →
        ∃ m, c.checkAndSetDefaults aws = .error (TraceErr.badParameter m))) ∧
    (∀ c2, c.checkAndSetDefaults aws = .ok c2 →
      c2.clock.isSome = true ∧ c2.credentials.isSome = true ∧
      (c.clock = none → c2.clock = some realClock)) := by
  constructor
  · refine ⟨?_, ?_, ?_, ?_, ?_, ?_, ?_, ?_, ?_, ?_⟩ <;>
      (intro h
       apply badParam_exists
       unfold Config.checkAndSetDefaults Config.checkRest
       by_cases h1 : c.withClockDefault.dataDir = ""
       · rw [if_pos h1]; rfl
       rw [if_neg h1]
       by_cases h2 : c.withClockDefault.authClient.isNone = true
       · rw [if_pos h2]; rfl
       rw [if_neg h2]
       by_cases h3 : c.withClockDefault.accessPoint.isNone = true
       · rw [if_pos h3]; rfl
       rw [if_neg h3]
       by_cases h4 : c.withClockDefault.streamEmitter.isNone = true
       · rw [if_pos h4]; rfl
       rw [if_neg h4]
       by_cases h5 : c.withClockDefault.tlsConfig.isNone = true
       · rw [if_pos h5]; rfl
       rw [if_neg h5]
       by_cases h6 : c.withClockDefault.cipherSuites.isEmpty = true
       · rw [if_pos h6]; rfl
       rw [if_neg h6]
       by_cases h7 : c.withClockDefault.authorizer.isNone = true
       · rw [if_pos h7]; rfl
       rw [if_neg h7]
       by_cases h8 : c.withClockDefault.getRotation.isNone = true
       · rw [if_pos h8]; rfl
       rw [if_neg h8]
       by_cases h9 : c.withClockDefault.servers.isEmpty = true
       · rw [if_pos h9]; rfl
       rw [if_neg h9]
       by_cases h10 : c.withClockDefault.onHeartbeat.isNone = true
       · rw [if_pos h10]; rfl
       exfalso
       simp_all only [withClockDefault_dataDir, withClockDefault_authClient,
         withClockDefault_accessPoint, withClockDefault_streamEmitter,
         withClockDefault_tlsConfig, withClockDefault_cipherSuites,
         withClockDefault_authorizer, withClockDefault_getRotation,
         withClockDefault_servers, withClockDefault_onHeartbeat,
         Option.isNone_none, List.isEmpty_nil, eq_self_iff_true, not_true])
  · intro c2 hc2
    unfold Config.checkAndSetDefaults Config.checkRest at hc2
    by_cases h1 : c.withClockDefault.dataDir = ""
    · rw [if_pos h1] at hc2; exact Except.noConfusion hc2
    rw [if_neg h1] at hc2
    by_cases h2 : c.withClockDefault.authClient.isNone = true
    · rw [if_pos h2] at hc2; exact Except.noConfusion hc2
    rw [if_neg h2] at hc2
    by_cases h3 : c.withClockDefault.accessPoint.isNone = true
    · rw [if_pos h3] at hc2; exact Except.noConfusion hc2
    rw [if_neg h3] at hc2
    by_cases h4 : c.withClockDefault.streamEmitter.isNone = true
    · rw [if_pos h4] at hc2; exact Except.noConfusion hc2
    rw [if_neg h4] at hc2
    by_cases h5 : c.withClockDefault.tlsConfig.isNone = true
    · rw [if_pos h5] at hc2; exact Except.noConfusion hc2
    rw [if_neg h5] at hc2
    by_cases h6 : c.withClockDefault.cipherSuites.isEmpty = true
    · rw [if_pos h6] at hc2; exact Except.noConfusion hc2
    rw [if_neg h6] at hc2
    by_cases h7 : c.withClockDefault.authorizer.isNone = true
    · rw [if_pos h7] at hc2; exact Except.noConfusion hc2
    rw [if_neg h7] at hc2
    by_cases h8 : c.withClockDefault.getRotation.isNone = true
    · rw [if_pos h8] at hc2; exact Except.noConfusion hc2
    rw [if_neg h8] at hc2
    by_cases h9 : c.withClockDefault.servers.isEmpty = true
    · rw [if_pos h9] at hc2; exact Except.noConfusion hc2
    rw [if_neg h9] at hc2
    by_cases h10 : c.withClockDefault.onHeartbeat.isNone = true
    · rw [if_pos h10] at hc2; exact Except.noConfusion hc2
    rw [if_neg h10] at hc2
    by_cases h11 : c.withClockDefault.credentials.isNone = true
    · rw [if_pos h11] at hc2
      rcases aws with e | cr
      · exact Except.noConfusion hc2
      · injection hc2 with hc2e
        subst hc2e
        refine ⟨?_, rfl, ?_⟩
        · exact withClockDefault_clock_isSome c
        · intro hnone
          exact withClockDefault_clock_of_none c hnone
    rw [if_neg h11] at hc2
    injection hc2 with hc2e
    subst hc2e
    refine ⟨withClockDefault_clock_isSome c, ?_, ?_⟩
    · cases hx : c.withClockDefault.credentials with
      | none => exact absurd (by rw [hx]; rfl) h11
      | some cr => rfl
    · intro hnone
      exact withClockDefault_clock_of_none c hnone

/-- A configuration complete except for the auth client. -/
def configMissingAuthClient : Config := { config0 with authClient := none }

/-- Witness: validation of a concrete Config missing the auth client
returns a BadParameter error, and a concrete fully validated Config holds a
defaulted clock. -/
theorem checkAndSetDefaults_mandatory_fields_witness :
    ∃ m, configMissingAuthClient.checkAndSetDefaults (Except.ok { id := 9 }) =
      .error (TraceErr.badParameter m) :=
  (checkAndSetDefaults_mandatory_fields (Except.ok { id := 9 })
    configMissingAuthClient).1.2.1 rfl

end DB
